import Mathlib

/-!
Shallow embedding of the metrics-aggregation and readiness-scoring engine of
the wellness dashboard (web/src/App.jsx and the chart components
web/src/components/TrendLine.jsx, web/src/components/StackedBar.jsx).

Modelling conventions:
* JS numbers are modelled as rationals (the arithmetic in scope is exact).
* JS Math.round is modelled as x down-rounded after adding 1/2, which matches
  Math.round on every number (halves round toward positive infinity).
* Optional record fields (a day with no heart-rate reading, a missing minutes
  field) are modelled as Option.
* JS string comparison (used by Array.prototype.sort on date strings) is the
  lexicographic order on the underlying character lists.
-/

/-- JS Math.round: rounds to the nearest integer, halves toward +infinity. -/
def jsRound (x : ℚ) : ℤ := ⌊x + 1/2⌋

/-- The clamp pattern Math.max(0, Math.min(1, x)) used by the scorer. -/
def clamp01 (x : ℚ) : ℚ := max 0 (min 1 x)

/-- A raw sleep-stage segment row {date, stage, mins} (getSleepDebug data). -/
structure SleepRow where
  date : String
  stage : String
  mins : Option ℚ
deriving DecidableEq

/-- A daily heart-rate row {date, avg_bpm?, min_bpm?, max_bpm?} (getHRLast7). -/
structure HRRow where
  date : String
  avg_bpm : Option ℚ
  min_bpm : Option ℚ
  max_bpm : Option ℚ
deriving DecidableEq

/-- A daily steps row {date, steps?} (getStepsLast7). -/
structure StepsRow where
  date : String
  steps : Option ℚ
deriving DecidableEq

/-- A daily calories row {date, kcal?} (getCaloriesLast7). -/
structure CalRow where
  date : String
  kcal : Option ℚ
deriving DecidableEq

/-- An intraday heart-rate sample {ts, avg_bpm} (getHRIntraday). -/
structure HRSample where
  ts : String
  avg_bpm : Option ℚ
deriving DecidableEq

/-- JS default string comparison on date strings: lexicographic order on the
character sequences. -/
def dateLe (a b : String) : Prop := a.data ≤ b.data

instance : DecidableRel dateLe :=
  fun a b => inferInstanceAs (Decidable (a.data ≤ b.data))

instance : IsTotal String dateLe := ⟨fun a b => le_total a.data b.data⟩

instance : IsTrans String dateLe := ⟨fun _ _ _ hab hbc => le_trans hab hbc⟩

instance : IsAntisymm String dateLe :=
  ⟨fun _ _ hab hba => String.toList_inj.mp (le_antisymm hab hba)⟩

/-- JS Array.prototype.slice(-n): the last n elements (the whole list when it
is shorter than n). -/
def sliceLast {α : Type*} (n : ℕ) (l : List α) : List α := l.drop (l.length - n)

/-- sleepDates: [...new Set(sleepRows.map(r => r.date))].sort().slice(-7).
The Set keeps each date once; sorting the deduplicated dates by the JS string
order is modelled with insertion sort (the elements are distinct, so the
choice of sorting algorithm is immaterial). -/
def sleepDates (sleepRows : List SleepRow) : List String :=
  sliceLast 7 (List.insertionSort dateLe ((sleepRows.map (fun r => r.date)).dedup))

/-- The per-date per-stage accumulator built by sleepByDate: absent buckets are
none, read back with an or-zero default. -/
def SleepMap : Type := String → String → Option ℚ

/-- One forEach step of sleepByDate:
map[r.date][r.stage] = (map[r.date][r.stage] || 0) + (r.mins || 0). -/
def insertRow (m : SleepMap) (r : SleepRow) : SleepMap :=
  fun d s =>
    if d = r.date ∧ s = r.stage then
      some ((m r.date r.stage).getD 0 + r.mins.getD 0)
    else m d s

/-- sleepByDate: fold of insertRow over the raw rows, starting from the empty
map. -/
def sleepByDate (sleepRows : List SleepRow) : SleepMap :=
  sleepRows.foldl insertRow (fun _ _ => none)

/-- The read-back sleepByDate[d]?.[s] || 0 used everywhere downstream. -/
def stageMin (sleepRows : List SleepRow) (d s : String) : ℚ :=
  (sleepByDate sleepRows d s).getD 0

/-- The three stages counted as sleep by the dashboard. -/
def sleepStages : List String := ["Light sleep", "Deep sleep", "REM sleep"]

/-- Total sleep minutes of a date:
['Light sleep','Deep sleep','REM sleep'].reduce((a,s) => a + (sleepByDate[d]?.[s]||0), 0). -/
def totalSleepMin (sleepRows : List SleepRow) (d : String) : ℚ :=
  sleepStages.foldl (fun a s => a + stageMin sleepRows d s) 0

/-- The sleep goal: const goal = 8*60. -/
def goalMinutes : ℚ := 8 * 60

/-- sleepScore = Math.max(0, Math.min(1, (goal ? sleepMin/goal : 0.5))). -/
def sleepScoreOfMin (sleepMin : ℚ) : ℚ :=
  clamp01 (if goalMinutes ≠ 0 then sleepMin / goalMinutes else 0.5)

/-- The minutes fed into the sleep component: the total of the most recent
aligned date; the guard (last ? ... : 0) makes both an absent last date and
the falsy empty-string date give 0. -/
def sleepMinutesOf (sleepRows : List SleepRow) : ℚ :=
  match (sleepDates sleepRows).getLast? with
  | some last => if last = "" then 0 else totalSleepMin sleepRows last
  | none => 0

/-- hrAvg = hr7.map(r => r.avg_bpm).filter(v => v != null): the readings that
are present, absent ones dropped (not zeroed). -/
def hrAvgListOf (hr7 : List HRRow) : List ℚ :=
  (hr7.map (fun r => r.avg_bpm)).filterMap id

/-- weeklyAvg = hrAvg.length ? hrAvg.reduce((a,b) => a+b, 0)/hrAvg.length : 0. -/
def weeklyAvgOf (hr7 : List HRRow) : ℚ :=
  let hrAvg := hrAvgListOf hr7
  if hrAvg.length ≠ 0 then hrAvg.sum / (hrAvg.length : ℚ) else 0

/-- yesterday = hrAvg.length ? (hr7[hr7.length-1].avg_bpm ?? weeklyAvg) : weeklyAvg.
When some reading exists, hr7 is nonempty; the none branch of getLast? is
unreachable then and defaults to weeklyAvg like the guard itself. -/
def yesterdayOf (hr7 : List HRRow) : ℚ :=
  if (hrAvgListOf hr7).length ≠ 0 then
    match hr7.getLast? with
    | some r => r.avg_bpm.getD (weeklyAvgOf hr7)
    | none => weeklyAvgOf hr7
  else weeklyAvgOf hr7

/-- hrScore = Math.max(0, Math.min(1, 1 - ((yesterday - weeklyAvg)/20))). -/
def hrScoreOf (hr7 : List HRRow) : ℚ :=
  clamp01 (1 - ((yesterdayOf hr7 - weeklyAvgOf hr7) / 20))

/-- stepsVals = steps7.map(r => r.steps || 0). -/
def stepsValsOf (steps7 : List StepsRow) : List ℚ :=
  steps7.map (fun r => r.steps.getD 0)

/-- sAvg = stepsVals.length ? stepsVals.reduce((a,b) => a+b, 0)/stepsVals.length : 0. -/
def stepsAvgOf (steps7 : List StepsRow) : ℚ :=
  let vals := stepsValsOf steps7
  if vals.length ≠ 0 then vals.sum / (vals.length : ℚ) else 0

/-- rel = sAvg ? (stepsVals[stepsVals.length-1] / sAvg) : 1. The last element
is only read when sAvg is nonzero, which forces the list nonempty; the getD 0
default is never used. -/
def stepsRelOf (steps7 : List StepsRow) : ℚ :=
  let sAvg := stepsAvgOf steps7
  if sAvg ≠ 0 then ((stepsValsOf steps7).getLast?.getD 0) / sAvg else 1

/-- let stepsScore = 1.0; if (rel>1.35) stepsScore=.8; else if (rel<0.6)
stepsScore=.86; else if (rel<0.85||rel>1.15) stepsScore=.94. -/
def stepsScoreOf (steps7 : List StepsRow) : ℚ :=
  let rel := stepsRelOf steps7
  if rel > 1.35 then 0.8
  else if rel < 0.6 then 0.86
  else if rel < 0.85 ∨ rel > 1.15 then 0.94
  else 1.0

/-- Written from the claim wording for comparison with the source: the steps
piecewise mapping as a function of rel alone, with breakpoints 0.60, 0.85,
1.15, 1.35 and levels 0.80, 0.86, 0.94, 1.00. -/
def stepsPiecewiseOfRel (rel : ℚ) : ℚ :=
  if rel > 1.35 then 0.8
  else if rel < 0.6 then 0.86
  else if rel < 0.85 ∨ rel > 1.15 then 0.94
  else 1.0

/-- readiness = Math.round(100*(0.5*sleepScore + 0.3*hrScore + 0.2*stepsScore)). -/
def readiness (sleepRows : List SleepRow) (hr7 : List HRRow) (steps7 : List StepsRow) : ℤ :=
  jsRound (100 * (0.5 * sleepScoreOfMin (sleepMinutesOf sleepRows)
    + 0.3 * hrScoreOf hr7 + 0.2 * stepsScoreOf steps7))

/-- lastR = hist.length ? hist[hist.length-1] : 70. -/
def lastROf (hist : List ℤ) : ℤ := (hist.getLast?).getD 70

/-- meanR = hist.length ? Math.round(hist.reduce((a,b) => a+b, 0)/hist.length) : 70. -/
def meanROf (hist : List ℤ) : ℤ :=
  if hist.length ≠ 0 then
    jsRound ((hist.map (fun z => (z : ℚ))).sum / (hist.length : ℚ))
  else 70

/-- proj1 = Math.round(0.6*lastR + 0.4*meanR). -/
def proj1Of (hist : List ℤ) : ℤ :=
  jsRound (0.6 * (lastROf hist : ℚ) + 0.4 * (meanROf hist : ℚ))

/-- proj2 = Math.round(0.6*proj1 + 0.4*meanR). -/
def proj2Of (hist : List ℤ) : ℤ :=
  jsRound (0.6 * (proj1Of hist : ℚ) + 0.4 * (meanROf hist : ℚ))

/-- proj3 = Math.round(0.6*proj2 + 0.4*meanR). -/
def proj3Of (hist : List ℤ) : ℤ :=
  jsRound (0.6 * (proj2Of hist : ℚ) + 0.4 * (meanROf hist : ℚ))

/-- The Readiness Projection dataset over the historical scores hist:
[...hist.slice(-3), proj1, proj2, proj3]. -/
def projection (hist : List ℤ) : List ℤ :=
  sliceLast 3 hist ++ [proj1Of hist, proj2Of hist, proj3Of hist]

/-- The JS values that occur in a chart dataset entry: null-or-undefined, a
number, the empty string, a nonempty numeric string (Number parses it to q),
or a nonempty non-numeric string (Number yields NaN on it). -/
inductive JSVal
  | null
  | num (q : ℚ)
  | emptyStr
  | numStr (q : ℚ)
  | badStr
deriving DecidableEq

/-- A plotted value after coercion: null (a gap), a number, or NaN. -/
inductive ChartVal
  | null
  | num (q : ℚ)
  | nan
deriving DecidableEq

/-- TrendLine per-entry coercion: v == null || v === '' ? null : Number(v). -/
def trendCoerce : JSVal → ChartVal
  | JSVal.null => ChartVal.null
  | JSVal.emptyStr => ChartVal.null
  | JSVal.num q => ChartVal.num q
  | JSVal.numStr q => ChartVal.num q
  | JSVal.badStr => ChartVal.nan

/-- StackedBar per-entry coercion: Number(v || 0). Falsy entries (null,
undefined, the empty string, the number 0) become Number(0) = 0; a nonempty
string is truthy and goes through Number, NaN when it is not numeric. -/
def stackedCoerce : JSVal → ChartVal
  | JSVal.null => ChartVal.num 0
  | JSVal.emptyStr => ChartVal.num 0
  | JSVal.num q => ChartVal.num q
  | JSVal.numStr q => ChartVal.num q
  | JSVal.badStr => ChartVal.nan

/-- TrendLine dataset shaping: (d.data || []).map(trendCoerce). -/
def trendData (data : Option (List JSVal)) : List ChartVal :=
  (data.getD []).map trendCoerce

/-- StackedBar dataset shaping: (d.data || []).map(stackedCoerce). -/
def stackedData (data : Option (List JSVal)) : List ChartVal :=
  (data.getD []).map stackedCoerce

/-- One fetched input snapshot of the dashboard: the five raw series held in
component state. -/
structure Snapshot where
  sleepRows : List SleepRow
  hr7 : List HRRow
  hrIntra : List HRSample
  steps7 : List StepsRow
  cal7 : List CalRow

/-- The readiness value computed from a snapshot: the useMemo reads only the
sleep, heart-rate and steps series. -/
def readinessOfSnapshot (snap : Snapshot) : ℤ :=
  readiness snap.sleepRows snap.hr7 snap.steps7

/-! Helper lemmas shared by several claims. -/

lemma clamp01_nonneg (x : ℚ) : 0 ≤ clamp01 x := le_max_left 0 _

lemma clamp01_le_one (x : ℚ) : clamp01 x ≤ 1 :=
  max_le (by norm_num) (min_le_left 1 x)

lemma clamp01_of_mem {x : ℚ} (h0 : 0 ≤ x) (h1 : x ≤ 1) : clamp01 x = x := by
  unfold clamp01
  rw [min_eq_right h1, max_eq_right h0]

lemma jsRound_nonneg {x : ℚ} (h : 0 ≤ x) : 0 ≤ jsRound x := by
  unfold jsRound
  exact Int.le_floor.mpr (by push_cast; linarith)

lemma jsRound_le_100 {x : ℚ} (h : x ≤ 100) : jsRound x ≤ 100 := by
  unfold jsRound
  calc ⌊x + 1/2⌋ ≤ ⌊(100 : ℚ) + 1/2⌋ := Int.floor_le_floor (by linarith)
    _ = 100 := by norm_num

lemma stepsScoreOf_eq_piecewise (steps7 : List StepsRow) :
    stepsScoreOf steps7 = stepsPiecewiseOfRel (stepsRelOf steps7) := rfl

lemma stepsScoreOf_cases (steps7 : List StepsRow) :
    stepsScoreOf steps7 = 0.8 ∨ stepsScoreOf steps7 = 0.86 ∨
      stepsScoreOf steps7 = 0.94 ∨ stepsScoreOf steps7 = 1 := by
  rw [stepsScoreOf_eq_piecewise]
  unfold stepsPiecewiseOfRel
  split_ifs <;> norm_num

lemma sleepScoreOfMin_eq_clamp (m : ℚ) : sleepScoreOfMin m = clamp01 (m / 480) := by
  simp only [sleepScoreOfMin, goalMinutes]
  norm_num

/-- C1: for every sleep, heart-rate and steps input series, the readiness value
is Math.round of 100 times the weighted component sum, each component score
lies in [0, 1], and the value is an integer in [0, 100]. -/
theorem readiness_value_in_range :
    ∀ (sleepRows : List SleepRow) (hr7 : List HRRow) (steps7 : List StepsRow),
      readiness sleepRows hr7 steps7 =
        jsRound (100 * (0.5 * sleepScoreOfMin (sleepMinutesOf sleepRows)
          + 0.3 * hrScoreOf hr7 + 0.2 * stepsScoreOf steps7)) ∧
      (0 ≤ sleepScoreOfMin (sleepMinutesOf sleepRows) ∧
        sleepScoreOfMin (sleepMinutesOf sleepRows) ≤ 1) ∧
      (0 ≤ hrScoreOf hr7 ∧ hrScoreOf hr7 ≤ 1) ∧
      (0 ≤ stepsScoreOf steps7 ∧ stepsScoreOf steps7 ≤ 1) ∧
      (0 ≤ readiness sleepRows hr7 steps7 ∧ readiness sleepRows hr7 steps7 ≤ 100) := by
  intro sleepRows hr7 steps7
  have hs0 : 0 ≤ sleepScoreOfMin (sleepMinutesOf sleepRows) := by
    rw [sleepScoreOfMin_eq_clamp]; exact clamp01_nonneg _
  have hs1 : sleepScoreOfMin (sleepMinutesOf sleepRows) ≤ 1 := by
    rw [sleepScoreOfMin_eq_clamp]; exact clamp01_le_one _
  have hh0 : 0 ≤ hrScoreOf hr7 := clamp01_nonneg _
  have hh1 : hrScoreOf hr7 ≤ 1 := clamp01_le_one _
  have hst : 0 ≤ stepsScoreOf steps7 ∧ stepsScoreOf steps7 ≤ 1 := by
    rcases stepsScoreOf_cases steps7 with h | h | h | h <;> rw [h] <;> norm_num
  refine ⟨rfl, ⟨hs0, hs1⟩, ⟨hh0, hh1⟩, hst, ?_, ?_⟩
  · exact jsRound_nonneg (by nlinarith [hst.1])
  · exact jsRound_le_100 (by nlinarith [hst.2])

/-- C2: the steps component equals the fixed piecewise mapping of
rel = lastDaySteps / stepsAvg, with stepsAvg the mean of the window (0 when
empty) and rel = 1 when stepsAvg is 0; the breakpoints 0.60, 0.85, 1.15, 1.35
and levels 0.80, 0.86, 0.94, 1.00 hold exactly, and at rel = 0.60, 0.85, 1.15,
1.35 the score is 0.94, 1.00, 1.00, 0.94 respectively. -/
theorem stepsScore_piecewise_exact :
    (∀ steps7 : List StepsRow,
      stepsScoreOf steps7 = stepsPiecewiseOfRel (stepsRelOf steps7)) ∧
    (∀ steps7 : List StepsRow, steps7 ≠ [] →
      stepsAvgOf steps7 = (stepsValsOf steps7).sum / ((stepsValsOf steps7).length : ℚ)) ∧
    stepsAvgOf [] = 0 ∧
    (∀ steps7 : List StepsRow, stepsAvgOf steps7 = 0 → stepsRelOf steps7 = 1) ∧
    (∀ steps7 : List StepsRow, stepsAvgOf steps7 ≠ 0 →
      stepsRelOf steps7 = ((stepsValsOf steps7).getLast?.getD 0) / stepsAvgOf steps7) ∧
    stepsPiecewiseOfRel 0.60 = 0.94 ∧ stepsPiecewiseOfRel 0.85 = 1.00 ∧
    stepsPiecewiseOfRel 1.15 = 1.00 ∧ stepsPiecewiseOfRel 1.35 = 0.94 ∧
    (stepsRelOf [⟨"d1", some 7⟩, ⟨"d2", some 3⟩] = 0.60 ∧
      stepsScoreOf [⟨"d1", some 7⟩, ⟨"d2", some 3⟩] = 0.94) ∧
    (stepsRelOf [⟨"d1", some 23⟩, ⟨"d2", some 17⟩] = 0.85 ∧
      stepsScoreOf [⟨"d1", some 23⟩, ⟨"d2", some 17⟩] = 1.00) ∧
    (stepsRelOf [⟨"d1", some 17⟩, ⟨"d2", some 23⟩] = 1.15 ∧
      stepsScoreOf [⟨"d1", some 17⟩, ⟨"d2", some 23⟩] = 1.00) ∧
    (stepsRelOf [⟨"d1", some 13⟩, ⟨"d2", some 27⟩] = 1.35 ∧
      stepsScoreOf [⟨"d1", some 13⟩, ⟨"d2", some 27⟩] = 0.94) := by
  refine ⟨fun steps7 => rfl, ?_, by norm_num [stepsAvgOf, stepsValsOf], ?_, ?_, ?_, ?_, ?_, ?_,
    ?_, ?_, ?_, ?_⟩
  · intro steps7 hne
    have hlen : (stepsValsOf steps7).length ≠ 0 := by
      simp [stepsValsOf, hne]
    simp only [stepsAvgOf, if_pos hlen]
  · intro steps7 h0
    simp [stepsRelOf, h0]
  · intro steps7 h0
    simp only [stepsRelOf, if_pos h0]
  · norm_num [stepsPiecewiseOfRel]
  · norm_num [stepsPiecewiseOfRel]
  · norm_num [stepsPiecewiseOfRel]
  · norm_num [stepsPiecewiseOfRel]
  · constructor <;>
      norm_num [stepsRelOf, stepsAvgOf, stepsValsOf, stepsScoreOf]
  · constructor <;>
      norm_num [stepsRelOf, stepsAvgOf, stepsValsOf, stepsScoreOf]
  · constructor <;>
      norm_num [stepsRelOf, stepsAvgOf, stepsValsOf, stepsScoreOf]
  · constructor <;>
      norm_num [stepsRelOf, stepsAvgOf, stepsValsOf, stepsScoreOf]

/-- Witness for the steps-component claim, instantiating its mean and rel
clauses at a concrete two-day window. -/
theorem stepsScore_piecewise_exact_witness :
    stepsAvgOf [⟨"d1", some 7⟩, ⟨"d2", some 3⟩] =
      (stepsValsOf [⟨"d1", some 7⟩, ⟨"d2", some 3⟩]).sum /
        ((stepsValsOf [⟨"d1", some 7⟩, ⟨"d2", some 3⟩]).length : ℚ) ∧
    stepsRelOf [] = 1 :=
  ⟨stepsScore_piecewise_exact.2.1 [⟨"d1", some 7⟩, ⟨"d2", some 3⟩] (by simp),
    stepsScore_piecewise_exact.2.2.2.1 [] (by norm_num [stepsAvgOf, stepsValsOf])⟩

/-- C5 counterexample: on the history [70, 75, 80] the projection dataset ends
in 76, not 77: proj3 = round(0.6*77 + 0.4*75) = round(76.2) = 76, so the
claimed output [70, 75, 80, 78, 77, 77] is not what the code produces. -/
theorem projection_example_refuted :
    projection [70, 75, 80] = [70, 75, 80, 78, 77, 76] ∧
    projection [70, 75, 80] ≠ [70, 75, 80, 78, 77, 77] := by
  have h : projection [70, 75, 80] = [70, 75, 80, 78, 77, 76] := by
    norm_num [projection, proj1Of, proj2Of, proj3Of, lastROf, meanROf, jsRound, sliceLast]
  refine ⟨h, ?_⟩
  rw [h]
  decide

/-- C5 amended: lastR is the most recent historical score (70 when empty),
meanR is the rounded mean (70 when empty), the three forecasts follow the
blended recurrence, the output is the last 3 historical points followed by the
3 forecasts, and for history [70, 75, 80] it yields proj1 = 78, proj2 = 77 and
proj3 = 76. -/
theorem projection_recurrence :
    (∀ hist : List ℤ, projection hist =
      sliceLast 3 hist ++ [proj1Of hist, proj2Of hist, proj3Of hist]) ∧
    (∀ hist : List ℤ,
      proj1Of hist = jsRound (0.6 * (lastROf hist : ℚ) + 0.4 * (meanROf hist : ℚ)) ∧
      proj2Of hist = jsRound (0.6 * (proj1Of hist : ℚ) + 0.4 * (meanROf hist : ℚ)) ∧
      proj3Of hist = jsRound (0.6 * (proj2Of hist : ℚ) + 0.4 * (meanROf hist : ℚ))) ∧
    (∀ hist : List ℤ, hist ≠ [] →
      meanROf hist = jsRound ((hist.map (fun z => (z : ℚ))).sum / (hist.length : ℚ))) ∧
    lastROf [] = 70 ∧ meanROf [] = 70 ∧ projection [] = [70, 70, 70] ∧
    lastROf [70, 75, 80] = 80 ∧ meanROf [70, 75, 80] = 75 ∧
    proj1Of [70, 75, 80] = 78 ∧ proj2Of [70, 75, 80] = 77 ∧ proj3Of [70, 75, 80] = 76 ∧
    projection [70, 75, 80] = [70, 75, 80, 78, 77, 76] := by
  refine ⟨fun hist => rfl, fun hist => ⟨rfl, rfl, rfl⟩, ?_, rfl, rfl, ?_, ?_, ?_, ?_, ?_, ?_, ?_⟩
  · intro hist hne
    have hlen : hist.length ≠ 0 := by simpa using hne
    simp only [meanROf, if_pos hlen]
  · norm_num [projection, proj1Of, proj2Of, proj3Of, lastROf, meanROf, jsRound, sliceLast]
  · norm_num [lastROf]
  · norm_num [meanROf, jsRound]
  · norm_num [proj1Of, lastROf, meanROf, jsRound]
  · norm_num [proj2Of, proj1Of, lastROf, meanROf, jsRound]
  · norm_num [proj3Of, proj2Of, proj1Of, lastROf, meanROf, jsRound]
  · norm_num [projection, proj1Of, proj2Of, proj3Of, lastROf, meanROf, jsRound, sliceLast]

/-- Witness for the projection recurrence, instantiating its nonempty-history
mean clause at the concrete history [70, 75, 80]. -/
theorem projection_recurrence_witness :
    meanROf [70, 75, 80] =
      jsRound ((([70, 75, 80] : List ℤ).map (fun z => (z : ℚ))).sum /
        (([70, 75, 80] : List ℤ).length : ℚ)) :=
  projection_recurrence.2.2.1 [70, 75, 80] (by decide)

/-- C6 counterexample: chart shaping does emit NaN on a non-numeric string
entry, and StackedBar coerces an absent entry to the number 0, not to null. -/
theorem chart_coercion_refuted :
    ChartVal.nan ∈ trendData (some [JSVal.badStr]) ∧
    stackedData (some [JSVal.null]) = [ChartVal.num 0] ∧
    stackedData (some [JSVal.null]) ≠ [ChartVal.null] := by
  refine ⟨?_, rfl, ?_⟩ <;> decide

/-- C6 amended: when no entry is a nonempty non-numeric string, no emitted
value is NaN; TrendLine coerces absent and empty entries to null and passes
numbers through; StackedBar coerces absent and empty entries to 0 (not null)
and passes numbers through; a nonempty non-numeric string entry becomes NaN in
both. -/
theorem chart_coercion_amended :
    (∀ data : Option (List JSVal), JSVal.badStr ∉ data.getD [] →
      ChartVal.nan ∉ trendData data ∧ ChartVal.nan ∉ stackedData data) ∧
    trendCoerce JSVal.null = ChartVal.null ∧
    trendCoerce JSVal.emptyStr = ChartVal.null ∧
    (∀ q : ℚ, trendCoerce (JSVal.num q) = ChartVal.num q ∧
      trendCoerce (JSVal.numStr q) = ChartVal.num q) ∧
    stackedCoerce JSVal.null = ChartVal.num 0 ∧
    stackedCoerce JSVal.emptyStr = ChartVal.num 0 ∧
    (∀ q : ℚ, stackedCoerce (JSVal.num q) = ChartVal.num q ∧
      stackedCoerce (JSVal.numStr q) = ChartVal.num q) ∧
    trendCoerce JSVal.badStr = ChartVal.nan ∧
    stackedCoerce JSVal.badStr = ChartVal.nan := by
  refine ⟨?_, rfl, rfl, fun q => ⟨rfl, rfl⟩, rfl, rfl, fun q => ⟨rfl, rfl⟩, rfl, rfl⟩
  intro data hbad
  constructor
  · intro hmem
    simp only [trendData, List.mem_map] at hmem
    obtain ⟨v, hv, hcoe⟩ := hmem
    cases v <;> simp only [trendCoerce, reduceCtorEq] at hcoe
    exact hbad hv
  · intro hmem
    simp only [stackedData, List.mem_map] at hmem
    obtain ⟨v, hv, hcoe⟩ := hmem
    cases v <;> simp only [stackedCoerce, reduceCtorEq] at hcoe
    exact hbad hv

/-- Witness for the amended chart-coercion claim at a concrete dataset with an
absent and a numeric entry. -/
theorem chart_coercion_amended_witness :
    ChartVal.nan ∉ trendData (some [JSVal.null, JSVal.num 3]) ∧
    ChartVal.nan ∉ stackedData (some [JSVal.null, JSVal.num 3]) :=
  chart_coercion_amended.1 (some [JSVal.null, JSVal.num 3]) (by decide)

/-- C8: on all-empty input series the computation totals to the neutral
default: sleepScore = 0, hrScore = 1, stepsScore = 1, and the readiness value
is round(100*(0.5*0 + 0.3*1 + 0.2*1)) = 50. -/
theorem readiness_empty_neutral :
    sleepMinutesOf [] = 0 ∧ sleepScoreOfMin 0 = 0 ∧ hrScoreOf [] = 1 ∧
    stepsScoreOf [] = 1 ∧
    readiness [] [] [] = jsRound (100 * (0.5 * 0 + 0.3 * 1 + 0.2 * 1)) ∧
    readiness [] [] [] = 50 := by
  refine ⟨rfl, ?_, ?_, ?_, ?_, ?_⟩
  · rw [sleepScoreOfMin_eq_clamp]
    norm_num [clamp01]
  · norm_num [hrScoreOf, weeklyAvgOf, yesterdayOf, hrAvgListOf, clamp01]
  · norm_num [stepsScoreOf, stepsRelOf, stepsAvgOf, stepsValsOf]
  · norm_num [readiness, sleepMinutesOf, sleepDates, sliceLast, sleepScoreOfMin,
      clamp01, goalMinutes, hrScoreOf, weeklyAvgOf, yesterdayOf, hrAvgListOf,
      stepsScoreOf, stepsRelOf, stepsAvgOf, stepsValsOf, jsRound]
  · norm_num [readiness, sleepMinutesOf, sleepDates, sliceLast, sleepScoreOfMin,
      clamp01, goalMinutes, hrScoreOf, weeklyAvgOf, yesterdayOf, hrAvgListOf,
      stepsScoreOf, stepsRelOf, stepsAvgOf, stepsValsOf, jsRound]

/-- C9: the sleep component clamp(totalSleepMinutes/480, 0, 1) is strictly
increasing on [0, 480] and constantly 1 from 480 minutes on. -/
theorem sleepScore_mono_plateau :
    (∀ m1 m2 : ℚ, 0 ≤ m1 → m1 < m2 → m2 ≤ 480 →
      sleepScoreOfMin m1 < sleepScoreOfMin m2) ∧
    (∀ m : ℚ, 480 ≤ m → sleepScoreOfMin m = 1) := by
  constructor
  · intro m1 m2 h0 h12 h480
    rw [sleepScoreOfMin_eq_clamp, sleepScoreOfMin_eq_clamp,
      clamp01_of_mem (div_nonneg h0 (by norm_num)) (by rw [div_le_one (by norm_num)]; linarith),
      clamp01_of_mem (div_nonneg (by linarith) (by norm_num))
        (by rw [div_le_one (by norm_num)]; linarith)]
    rw [div_lt_div_iff₀ (by norm_num) (by norm_num)]
    linarith
  · intro m h
    rw [sleepScoreOfMin_eq_clamp]
    unfold clamp01
    rw [min_eq_left (by rw [le_div_iff₀ (by norm_num)]; linarith)]
    norm_num

/-- Witness for the sleep-component monotonicity claim at 100 < 200 minutes
and at 500 minutes past the goal. -/
theorem sleepScore_mono_plateau_witness :
    sleepScoreOfMin 100 < sleepScoreOfMin 200 ∧ sleepScoreOfMin 500 = 1 :=
  ⟨sleepScore_mono_plateau.1 100 200 (by norm_num) (by norm_num) (by norm_num),
    sleepScore_mono_plateau.2 500 (by norm_num)⟩

/-- C10: the readiness value and all three component scores are unchanged
between two snapshots that agree on the sleep, heart-rate, intraday and steps
series, whatever their calories series are. -/
theorem readiness_ignores_calories :
    ∀ s1 s2 : Snapshot, s1.sleepRows = s2.sleepRows → s1.hr7 = s2.hr7 →
      s1.hrIntra = s2.hrIntra → s1.steps7 = s2.steps7 →
      readinessOfSnapshot s1 = readinessOfSnapshot s2 ∧
      sleepScoreOfMin (sleepMinutesOf s1.sleepRows) =
        sleepScoreOfMin (sleepMinutesOf s2.sleepRows) ∧
      hrScoreOf s1.hr7 = hrScoreOf s2.hr7 ∧
      stepsScoreOf s1.steps7 = stepsScoreOf s2.steps7 := by
  intro s1 s2 h1 h2 h3 h4
  rw [readinessOfSnapshot, readinessOfSnapshot, h1, h2, h4]
  exact ⟨rfl, rfl, rfl, rfl⟩

/-- Witness for calories noninterference: two concrete snapshots that differ
only in the calories series give the same readiness value. -/
theorem readiness_ignores_calories_witness :
    readinessOfSnapshot ⟨[], [], [], [], []⟩ =
      readinessOfSnapshot ⟨[], [], [], [], [⟨"2024-01-01", some 500⟩]⟩ :=
  (readiness_ignores_calories ⟨[], [], [], [], []⟩
    ⟨[], [], [], [], [⟨"2024-01-01", some 500⟩]⟩ rfl rfl rfl rfl).1

/-! Lemmas for the heart-rate component. -/

lemma hrAvgList_eq_filter (hr7 : List HRRow) :
    hrAvgListOf hr7 =
      (hr7.filter (fun r => r.avg_bpm.isSome)).map (fun r => r.avg_bpm.getD 0) := by
  induction hr7 with
  | nil => rfl
  | cons r t ih =>
    simp only [hrAvgListOf, List.map_cons, List.filterMap_cons, List.filter_cons] at ih ⊢
    cases h : r.avg_bpm with
    | none => simpa [h] using ih
    | some v => simpa [h] using ih

lemma hrAvgList_length_ne_zero (hr7 : List HRRow) (r : HRRow) (v : ℚ)
    (hlast : hr7.getLast? = some r) (hv : r.avg_bpm = some v) :
    (hrAvgListOf hr7).length ≠ 0 := by
  have hr_mem : r ∈ hr7 := List.mem_of_mem_getLast? hlast
  have hvm : v ∈ hrAvgListOf hr7 := by
    simp only [hrAvgListOf, List.mem_filterMap, List.mem_map, id_eq]
    exact ⟨some v, ⟨r, hr_mem, hv⟩, rfl⟩
  intro hlen
  rw [List.length_eq_zero] at hlen
  rw [hlen] at hvm
  exact List.not_mem_nil v hvm

/-- C3: the weekly heart-rate average is the mean of exactly the records with
a present avg_bpm (absent readings excluded, never zeroed), 0 when none is
present; yesterday is the most recent record's avg_bpm with fallback to the
weekly average; hrScore is the clamp of 1 - (yesterday - weeklyAvg)/20 and is
1 on the empty series. -/
theorem hr_component_mean_fallback :
    (∀ hr7 : List HRRow, hr7.filter (fun r => r.avg_bpm.isSome) ≠ [] →
      weeklyAvgOf hr7 =
        ((hr7.filter (fun r => r.avg_bpm.isSome)).map (fun r => r.avg_bpm.getD 0)).sum /
          (((hr7.filter (fun r => r.avg_bpm.isSome)).length : ℚ))) ∧
    (∀ hr7 : List HRRow, hr7.filter (fun r => r.avg_bpm.isSome) = [] →
      weeklyAvgOf hr7 = 0) ∧
    (∀ (hr7 : List HRRow) (d : String),
      weeklyAvgOf (hr7 ++ [⟨d, none, none, none⟩]) = weeklyAvgOf hr7) ∧
    (∀ hr7 : List HRRow,
      yesterdayOf hr7 = (hr7.getLast?.bind (fun r => r.avg_bpm)).getD (weeklyAvgOf hr7)) ∧
    (∀ hr7 : List HRRow,
      hrScoreOf hr7 = clamp01 (1 - ((yesterdayOf hr7 - weeklyAvgOf hr7) / 20))) ∧
    hrScoreOf [] = 1 := by
  refine ⟨?_, ?_, ?_, ?_, fun hr7 => rfl, ?_⟩
  · intro hr7 hne
    have hlist := hrAvgList_eq_filter hr7
    have hlen : (hrAvgListOf hr7).length =
        (hr7.filter (fun r => r.avg_bpm.isSome)).length := by
      rw [hlist, List.length_map]
    have hnz : (hrAvgListOf hr7).length ≠ 0 := by
      rw [hlen]
      simpa [List.length_eq_zero] using hne
    simp only [weeklyAvgOf, if_pos hnz]
    rw [hlist, List.length_map]
  · intro hr7 hnil
    have hlist := hrAvgList_eq_filter hr7
    rw [hnil, List.map_nil] at hlist
    simp [weeklyAvgOf, hlist]
  · intro hr7 d
    have h : hrAvgListOf (hr7 ++ [⟨d, none, none, none⟩]) = hrAvgListOf hr7 := by
      simp [hrAvgListOf, List.filterMap_append]
    simp only [weeklyAvgOf, h]
  · intro hr7
    cases hlast : hr7.getLast? with
    | none =>
      rw [List.getLast?_eq_none_iff] at hlast
      subst hlast
      rfl
    | some r =>
      cases hv : r.avg_bpm with
      | none =>
        by_cases hl : (hrAvgListOf hr7).length ≠ 0 <;>
          simp [yesterdayOf, hlast, hv, hl]
      | some v =>
        have hnz := hrAvgList_length_ne_zero hr7 r v hlast hv
        simp [yesterdayOf, hlast, hv, hnz]
  · norm_num [hrScoreOf, weeklyAvgOf, yesterdayOf, hrAvgListOf, clamp01]

/-- Witness for the heart-rate component claim at a two-day window with one
absent reading: the mean counts only the present reading. -/
theorem hr_component_mean_fallback_witness :
    weeklyAvgOf [⟨"d1", some 60, none, none⟩, ⟨"d2", none, none, none⟩] = 60 ∧
    weeklyAvgOf [⟨"d3", none, none, none⟩] = 0 :=
  ⟨(hr_component_mean_fallback.1 [⟨"d1", some 60, none, none⟩, ⟨"d2", none, none, none⟩]
      (by decide)).trans (by norm_num),
    hr_component_mean_fallback.2.1 [⟨"d3", none, none, none⟩] (by decide)⟩

/-! Lemmas for the sleep-stage aggregation. -/

lemma sleepByDate_read (rows : List SleepRow) (m : SleepMap) (d s : String) :
    ((rows.foldl insertRow m) d s).getD 0 =
      (m d s).getD 0 +
        ((rows.filter (fun r => d = r.date ∧ s = r.stage)).map (fun r => r.mins.getD 0)).sum := by
  induction rows generalizing m with
  | nil => simp
  | cons r t ih =>
    rw [List.foldl_cons, ih, List.filter_cons]
    by_cases h : d = r.date ∧ s = r.stage
    · obtain ⟨h1, h2⟩ := h
      subst h1
      subst h2
      simp [insertRow]
      ring
    · simp [insertRow, h]

lemma stageMin_eq_sum (rows : List SleepRow) (d s : String) :
    stageMin rows d s =
      ((rows.filter (fun r => d = r.date ∧ s = r.stage)).map (fun r => r.mins.getD 0)).sum := by
  have h := sleepByDate_read rows (fun _ _ => none) d s
  simpa [stageMin, sleepByDate] using h

lemma totalSleepMin_eq_three (rows : List SleepRow) (d : String) :
    totalSleepMin rows d = stageMin rows d "Light sleep" + stageMin rows d "Deep sleep"
      + stageMin rows d "REM sleep" := by
  simp only [totalSleepMin, sleepStages, List.foldl_cons, List.foldl_nil]
  ring

lemma totalSleepMin_append_nonsleep (rows : List SleepRow) (r : SleepRow) (d : String)
    (hst : r.stage ∉ sleepStages) :
    totalSleepMin (rows ++ [r]) d = totalSleepMin rows d := by
  have h3 : ∀ s, s ∈ sleepStages → stageMin (rows ++ [r]) d s = stageMin rows d s := by
    intro s hs
    have hne : ¬(d = r.date ∧ s = r.stage) := by
      rintro ⟨-, h2⟩
      exact hst (h2 ▸ hs)
    rw [stageMin_eq_sum, stageMin_eq_sum, List.filter_append]
    simp [List.filter_cons, hne]
  rw [totalSleepMin_eq_three, totalSleepMin_eq_three,
    h3 _ (by simp [sleepStages]), h3 _ (by simp [sleepStages]), h3 _ (by simp [sleepStages])]

lemma sleepDates_append_mem (rows : List SleepRow) (r : SleepRow)
    (hmem : r.date ∈ rows.map (fun x => x.date)) :
    sleepDates (rows ++ [r]) = sleepDates rows := by
  have hperm : (((rows ++ [r]).map (fun x => x.date)).dedup).Perm
      ((rows.map (fun x => x.date)).dedup) := by
    rw [List.perm_ext_iff_of_nodup (List.nodup_dedup _) (List.nodup_dedup _)]
    intro a
    simp only [List.mem_dedup, List.map_append, List.mem_append, List.map_cons,
      List.map_nil, List.mem_singleton]
    constructor
    · rintro (h | h)
      · exact h
      · exact h ▸ hmem
    · exact fun h => Or.inl h
  have hsorteq : List.insertionSort dateLe (((rows ++ [r]).map (fun x => x.date)).dedup) =
      List.insertionSort dateLe ((rows.map (fun x => x.date)).dedup) := by
    exact @List.eq_of_perm_of_sorted String dateLe _ _ _
      (((List.perm_insertionSort _ _).trans hperm).trans
        (List.perm_insertionSort _ _).symm)
      (List.sorted_insertionSort dateLe _) (List.sorted_insertionSort dateLe _)
  unfold sleepDates
  rw [hsorteq]

/-- C4: the per-day per-stage minute total is the sum of the minutes of the
segments with that date and stage (missing minutes and missing buckets count
as 0); the daily total is Light + Deep + REM only; and a segment whose stage
is none of the three sleep stages (Awake, Out-of-bed, ...) contributes nothing
to any daily total nor to the readiness sleep-component minutes. -/
theorem sleep_totals_stage_sum :
    (∀ (rows : List SleepRow) (d s : String),
      stageMin rows d s =
        ((rows.filter (fun r => d = r.date ∧ s = r.stage)).map (fun r => r.mins.getD 0)).sum) ∧
    (∀ (rows : List SleepRow) (d : String),
      totalSleepMin rows d = stageMin rows d "Light sleep" + stageMin rows d "Deep sleep"
        + stageMin rows d "REM sleep") ∧
    (∀ (rows : List SleepRow) (r : SleepRow) (d : String), r.stage ∉ sleepStages →
      totalSleepMin (rows ++ [r]) d = totalSleepMin rows d) ∧
    (∀ (rows : List SleepRow) (r : SleepRow), r.stage ∉ sleepStages →
      r.date ∈ rows.map (fun x => x.date) →
      sleepMinutesOf (rows ++ [r]) = sleepMinutesOf rows) := by
  refine ⟨stageMin_eq_sum, totalSleepMin_eq_three,
    fun rows r d hst => totalSleepMin_append_nonsleep rows r d hst, ?_⟩
  intro rows r hst hmem
  have hd := sleepDates_append_mem rows r hmem
  unfold sleepMinutesOf
  rw [hd]
  cases hlast : (sleepDates rows).getLast? with
  | none => rfl
  | some last =>
    by_cases hempty : last = ""
    · simp [hempty]
    · simp only [hempty, if_neg, ite_false]
      exact totalSleepMin_append_nonsleep rows r last hst

/-- Witness for the stage-totals claim: an added Awake segment on an existing
date changes neither the daily total nor the readiness sleep minutes. -/
theorem sleep_totals_stage_sum_witness :
    totalSleepMin ([⟨"d", "Light sleep", some 100⟩] ++ [⟨"d", "Awake", some 30⟩]) "d" =
      totalSleepMin [⟨"d", "Light sleep", some 100⟩] "d" ∧
    sleepMinutesOf ([⟨"d", "Light sleep", some 100⟩] ++ [⟨"d", "Awake", some 30⟩]) =
      sleepMinutesOf [⟨"d", "Light sleep", some 100⟩] :=
  ⟨sleep_totals_stage_sum.2.2.1 [⟨"d", "Light sleep", some 100⟩] ⟨"d", "Awake", some 30⟩
      "d" (by decide),
    sleep_totals_stage_sum.2.2.2 [⟨"d", "Light sleep", some 100⟩] ⟨"d", "Awake", some 30⟩
      (by decide) (by decide)⟩

/-- C7: the aligned date sequence is duplicate-free, strictly ascending, of
length at most 7, drawn from the dates occurring in the input, consists of the
greatest distinct dates (every date left out is below every date kept), is all
of the distinct dates when there are at most 7, and is empty on empty input. -/
theorem sleepDates_aligned_spec :
    (∀ rows : List SleepRow,
      (sleepDates rows).Nodup ∧
      List.Sorted (fun a b : String => a < b) (sleepDates rows) ∧
      (sleepDates rows).length ≤ 7 ∧
      (∀ d ∈ sleepDates rows, d ∈ rows.map (fun r => r.date)) ∧
      (∀ d ∈ rows.map (fun r => r.date), d ∉ sleepDates rows →
        ∀ e ∈ sleepDates rows, d < e) ∧
      (((rows.map (fun r => r.date)).dedup).length ≤ 7 →
        ∀ d ∈ rows.map (fun r => r.date), d ∈ sleepDates rows)) ∧
    sleepDates [] = [] := by
  refine ⟨?_, rfl⟩
  intro rows
  have hperm : (List.insertionSort dateLe ((rows.map (fun r => r.date)).dedup)).Perm
      ((rows.map (fun r => r.date)).dedup) := List.perm_insertionSort _ _
  have hnodup : (List.insertionSort dateLe ((rows.map (fun r => r.date)).dedup)).Nodup :=
    hperm.symm.nodup (List.nodup_dedup _)
  have hsortle : List.Sorted dateLe
      (List.insertionSort dateLe ((rows.map (fun r => r.date)).dedup)) :=
    List.sorted_insertionSort dateLe _
  have hsortlt : List.Pairwise (fun a b : String => a < b)
      (List.insertionSort dateLe ((rows.map (fun r => r.date)).dedup)) := by
    refine (hsortle.and hnodup).imp ?_
    intro a b hab
    rw [String.lt_iff_toList_lt]
    exact lt_of_le_of_ne hab.1 fun hdata => hab.2 (String.toList_inj.mp hdata)
  have hdates : sleepDates rows =
      (List.insertionSort dateLe ((rows.map (fun r => r.date)).dedup)).drop
        ((List.insertionSort dateLe ((rows.map (fun r => r.date)).dedup)).length - 7) := rfl
  refine ⟨?_, ?_, ?_, ?_, ?_, ?_⟩
  · rw [hdates]
    exact List.Nodup.sublist (List.drop_sublist _ _) hnodup
  · rw [hdates]
    exact List.Pairwise.sublist (List.drop_sublist _ _) hsortlt
  · rw [hdates, List.length_drop]
    omega
  · intro d hd
    rw [hdates] at hd
    have hmem : d ∈ List.insertionSort dateLe ((rows.map (fun r => r.date)).dedup) :=
      (List.drop_sublist _ _).subset hd
    exact List.mem_dedup.mp (hperm.mem_iff.mp hmem)
  · intro d hdl hdnot e he
    have hdsl : d ∈ List.insertionSort dateLe ((rows.map (fun r => r.date)).dedup) :=
      hperm.mem_iff.mpr (List.mem_dedup.mpr hdl)
    rw [hdates] at hdnot he
    have hsplit := List.take_append_drop
      ((List.insertionSort dateLe ((rows.map (fun r => r.date)).dedup)).length - 7)
      (List.insertionSort dateLe ((rows.map (fun r => r.date)).dedup))
    rw [← hsplit] at hdsl hsortlt
    rcases List.mem_append.mp hdsl with htake | hdrop
    · exact (List.pairwise_append.mp hsortlt).2.2 d htake e he
    · exact absurd hdrop hdnot
  · intro hlen7 d hdl
    have hlen : (List.insertionSort dateLe ((rows.map (fun r => r.date)).dedup)).length =
        ((rows.map (fun r => r.date)).dedup).length := hperm.length_eq
    have h0 : (List.insertionSort dateLe ((rows.map (fun r => r.date)).dedup)).length - 7 = 0 := by
      omega
    rw [hdates, h0, List.drop_zero]
    exact hperm.mem_iff.mpr (List.mem_dedup.mpr hdl)

/-- Witness for the aligned-dates claim at a concrete three-row input with a
repeated date. -/
theorem sleepDates_aligned_spec_witness :
    (sleepDates [⟨"2024-01-02", "Light sleep", some 10⟩,
      ⟨"2024-01-01", "Deep sleep", some 5⟩,
      ⟨"2024-01-02", "REM sleep", some 3⟩]).Nodup ∧
    (sleepDates [⟨"2024-01-02", "Light sleep", some 10⟩,
      ⟨"2024-01-01", "Deep sleep", some 5⟩,
      ⟨"2024-01-02", "REM sleep", some 3⟩]).length ≤ 7 ∧
    "2024-01-01" ∈ sleepDates [⟨"2024-01-02", "Light sleep", some 10⟩,
      ⟨"2024-01-01", "Deep sleep", some 5⟩,
      ⟨"2024-01-02", "REM sleep", some 3⟩] := by
  refine ⟨(sleepDates_aligned_spec.1 _).1, (sleepDates_aligned_spec.1 _).2.2.1, ?_⟩
  exact (sleepDates_aligned_spec.1 _).2.2.2.2.2 (by decide) "2024-01-01" (by decide)
